import Mathlib

/-!
Verification of the S3 object-path resolution and parallel bulk-download
subsystem of the `cdseutils` repository (`src/sentinel2.py`, `src/utils.py`,
`src/constants.py`, `src/mydataclasses.py`).

Python strings are modelled as `List Char` (named `Str`); Python exceptions
are modelled with `Except PyErr`.  Each `PyErr` constructor records the
spec-level error name of one raise site of the source:

* `formatError`            : `ValueError` from tuple unpacking of a
  `str.split` result (`sentinel2_id_parser`, `parse_band_filename`) and the
  malformed-URI failure of the locator parser (spec name `FormatError`);
* `unsupportedBandError`   : `ValueError("Invalid bands found: ...")` in
  `get_s3paths_single_url` and `NotImplementedError(f'band = ...')` in
  `get_band_filename` (spec name `UnsupportedBandError`);
* `invalidLocatorError`    : the two `ValueError`s guarding the s3url shape in
  `get_s3paths_single_url` / `s3url_to_download_folderpath` (spec name
  `InvalidLocatorError`);
* `notImplementedError`    : `NotImplementedError(f'satellite = ...')`;
* `indexError`             : `IndexError` from `[...][0]` on an empty list
  comprehension in `parse_s3url`;
* `attributeError`         : attribute/type failure from using a `None` field
  of a `parse_s3url` result where a string is required;
* `mismatchedLengthError`  : `ValueError('Size of s3_paths and
  download_filepaths do not match.')` in `download_s3_files` (spec name
  `MismatchedLengthError`);
* `argumentError`          : `Exception("Either 'download_folderpath' or
  'download_filepath' should be non None.")` in `download_s3_file`;
* `transferError`          : any transport exception escaping
  `bucket.download_file`.
-/

inductive PyErr where
  | formatError
  | unsupportedBandError
  | invalidLocatorError
  | notImplementedError
  | indexError
  | attributeError
  | mismatchedLengthError
  | argumentError
  | transferError
deriving DecidableEq

/-- Python strings, modelled as lists of characters. -/
abbrev Str := List Char

/-- Python `s.split(c)` for a one-character separator: always returns a
nonempty list, `''.split(c) = ['']`, adjacent separators yield empty parts. -/
def splitOnC (c : Char) : Str → List Str
  | [] => [[]]
  | x :: xs =>
    match splitOnC c xs with
    | [] => [[]]
    | r :: rs => if x = c then [] :: r :: rs else (x :: r) :: rs

/-- Python `s.removesuffix(suf)`. -/
def stripSuf (suf s : Str) : Str :=
  if suf.isSuffixOf s then s.take (s.length - suf.length) else s

/-- Python `s.removeprefix(pre)`. -/
def stripPre (pre s : Str) : Str :=
  if pre.isPrefixOf s then s.drop pre.length else s

/-- Python `s.split(c, 1)` when it yields two parts: `some (before, after)`
for the first occurrence of `c`, `none` when `c` does not occur. -/
def splitFirst (c : Char) : Str → Option (Str × Str)
  | [] => none
  | x :: xs =>
    if x = c then some ([], xs)
    else (splitFirst c xs).map (fun p => (x :: p.1, p.2))

/-- Python `needle in hay` (substring containment). -/
def isSubOf (needle : Str) : Str → Bool
  | [] => needle.isEmpty
  | c :: rest => needle.isPrefixOf (c :: rest) || isSubOf needle rest

/-- Python `os.path.join(p, *rest)` (posixpath semantics). -/
def osPathJoin (parts : List Str) : Str :=
  match parts with
  | [] => []
  | p :: rest =>
    rest.foldl (fun path b =>
      if (['/'] : Str).isPrefixOf b then b
      else if path = [] ∨ path.getLast? = some '/' then path ++ b
      else path ++ '/' :: b) p

/-- Effectful map over a list, stopping at the first exception (a Python
list comprehension whose element expression may raise). -/
def exMapM {α β : Type} (f : α → Except PyErr β) : List α → Except PyErr (List β)
  | [] => .ok []
  | x :: xs =>
    match f x with
    | .error e => .error e
    | .ok y =>
      match exMapM f xs with
      | .error e => .error e
      | .ok ys => .ok (y :: ys)

/-- Effectful left fold, stopping at the first exception (a Python `for`
loop accumulating into a local, whose body may raise). -/
def exFoldlM {γ α : Type} (f : γ → α → Except PyErr γ) : γ → List α → Except PyErr γ
  | acc, [] => .ok acc
  | acc, x :: xs =>
    match f acc x with
    | .error e => .error e
    | .ok acc1 => exFoldlM f acc1 xs

/-! Constants from `src/sentinel2.py` and `src/constants.py`. -/

def EXT_SAFE : Str := (".SAFE").data
def EXT_JP2 : Str := (".jp2").data
def EXT_XML : Str := (".xml").data
def VALID_S3URL_START : Str := ("s3://EODATA/").data
def VALID_S3URL_END : Str := (".SAFE/").data
def MTD_TL_XML : Str := ("MTD_TL.xml").data
def S3_SCHEME : Str := ("s3://").data

def S2L1C_NAME : Str := ("sentinel-2-l1c").data
def S2L2A_NAME : Str := ("sentinel-2-l2a").data

/-- `constants.Bands.S2L1C.ALL`. -/
def S2L1C_ALL : List Str :=
  [("B01").data, ("B02").data, ("B03").data, ("B04").data, ("B05").data,
   ("B06").data, ("B07").data, ("B08").data, ("B8A").data, ("B09").data,
   ("B10").data, ("B11").data, ("B12").data]

/-- `constants.Bands.S2L2A.ALL`. -/
def S2L2A_ALL : List Str :=
  [("B01").data, ("B02").data, ("B03").data, ("B04").data, ("B05").data,
   ("B06").data, ("B07").data, ("B08").data, ("B8A").data, ("B09").data,
   ("B11").data, ("B12").data, ("SCL").data]

/-- The band list of the first branch of `get_band_filename` (suffix `_20m`). -/
def S2L2A_20M_BANDS : List Str :=
  [("B01").data, ("B05").data, ("B06").data, ("B07").data, ("B8A").data,
   ("B09").data, ("B11").data, ("B12").data, ("SCL").data]

/-- The band list of the second branch of `get_band_filename` (suffix `_10m`). -/
def S2L2A_10M_BANDS : List Str :=
  [("B02").data, ("B03").data, ("B04").data, ("B08").data]

/-! Data model. -/

/-- Result dictionary of `sentinel2_id_parser` (`src/sentinel2.py`). -/
structure ParsedId where
  mission_identifier : Str
  product_level : Str
  datatake_sensing_startdate : Str
  processing_baseline_number : Str
  relative_orbit_number : Str
  tile_number_field : Str
  product_discriminator : Str
deriving DecidableEq

/-- Result dictionary of `parse_band_filename` (`src/sentinel2.py`). -/
structure ParsedBandFilename where
  tile_number_field : Str
  datatake_sensing_startdate : Str
  band : Str
  ext : Str
deriving DecidableEq

/-- `mydataclasses.S3Path`.  The source field `prefix` is named `key` here
because `prefix` is a Lean keyword. -/
structure S3Path where
  bucket : Str
  key : Str
deriving DecidableEq

/-- Result dictionary of `parse_s3url` (`src/sentinel2.py`). -/
structure ParsedS3Url where
  id : Option Str
  band_filename : Option Str
  xml_filename : Option Str
deriving DecidableEq

/-! Locator parsing.  `utils.s3url_to_s3path` and `utils.s3path_to_s3url` are
called from `src/sentinel2.py` but are absent from the sources in `src/`, so
they are modelled from the spec. -/

/-- Modelled from the spec: `utils.s3url_to_s3path` is referenced from
`src/sentinel2.py` but missing from `src/utils.py`.  Spec section 4.1:
`parse(uri)` fails with `FormatError` unless `uri` starts with the required
scheme prefix; it splits the remainder on the first `/`, the first segment is
the bucket, the remainder is the key (may be empty).  A remainder with no `/`
cannot be split into the two fields and likewise fails (`format` is required
to be the exact inverse). -/
def s3url_to_s3path (s3url : Str) : Except PyErr S3Path :=
  if S3_SCHEME.isPrefixOf s3url then
    match splitFirst '/' (s3url.drop S3_SCHEME.length) with
    | some (bucket, key) => .ok ⟨bucket, key⟩
    | none => .error PyErr.formatError
  else .error PyErr.formatError

/-- Modelled from the spec: `utils.s3path_to_s3url` is referenced from
`src/sentinel2.py` but missing from `src/utils.py`.  Spec section 4.1:
`format(locator)` is `scheme + bucket + "/" + key_prefix`. -/
def s3path_to_s3url (s3path : S3Path) : Str :=
  S3_SCHEME ++ s3path.bucket ++ '/' :: s3path.key

/-! Functions of `src/sentinel2.py`. -/

/-- `sentinel2_id_parser` (`src/sentinel2.py`, lines 19-40): strip the
`.SAFE` suffix, split on `_`, and unpack exactly seven fields (the Lean name
avoids the source name `sentinel2_id_parser` for lexical reasons). -/
def parse_sentinel2_id (sentinel2_id : Str) : Except PyErr ParsedId :=
  match splitOnC '_' (stripSuf EXT_SAFE sentinel2_id) with
  | [a, b, c, d, e, f, g] => .ok ⟨a, b, c, d, e, f, g⟩
  | _ => .error PyErr.formatError

/-- `get_band_filename` (`src/sentinel2.py`, lines 56-90). -/
def get_band_filename (sentinel2_id band ext : Str) (add_s2l2a_suffix : Bool) :
    Except PyErr Str :=
  match (if add_s2l2a_suffix then
           if band ∈ S2L2A_20M_BANDS then Except.ok (("_20m").data)
           else if band ∈ S2L2A_10M_BANDS then Except.ok (("_10m").data)
           else Except.error PyErr.unsupportedBandError
         else Except.ok ([] : Str) : Except PyErr Str) with
  | .error e => .error e
  | .ok s2l2a_suffix =>
    match parse_sentinel2_id sentinel2_id with
    | .error e => .error e
    | .ok parsed =>
      .ok (parsed.tile_number_field ++ '_' :: parsed.datatake_sensing_startdate ++
           '_' :: band ++ s2l2a_suffix ++ ext)

/-- Satellite dispatch of `parse_band_filename` (`src/sentinel2.py`, lines
99-108), applied to the already unpacked `filename, ext` pair: the unsuffixed
family unpacks exactly 3 underscore-delimited segments, the suffixed family
exactly 4 (discarding the resolution segment). -/
def pbfDispatch (satellite : Str) (filename ext : Str) :
    Except PyErr ParsedBandFilename :=
  if satellite = S2L1C_NAME then
    match splitOnC '_' filename with
    | [t, d, b] => .ok ⟨t, d, b, '.' :: ext⟩
    | _ => .error PyErr.formatError
  else if satellite = S2L2A_NAME then
    match splitOnC '_' filename with
    | [t, d, b, _r] => .ok ⟨t, d, b, '.' :: ext⟩
    | _ => .error PyErr.formatError
  else .error PyErr.notImplementedError

/-- `parse_band_filename` (`src/sentinel2.py`, lines 93-115): the unpacking
`filename, ext = sentinel2_band_filename.split('.')` requires exactly two
dot-delimited parts, then dispatches on the satellite name. -/
def parse_band_filename (sentinel2_band_filename : Str) (satellite : Str) :
    Except PyErr ParsedBandFilename :=
  match splitOnC '.' sentinel2_band_filename with
  | [filename, ext] => pbfDispatch satellite filename ext
  | _ => .error PyErr.formatError

/-- The list comprehension `[x for x in segs if ext in x][0]` of
`parse_s3url`: first segment containing `ext`, `IndexError` when none does. -/
def firstSegSub (ext : Str) (segs : List Str) : Except PyErr Str :=
  match segs.filter (fun x => isSubOf ext x) with
  | [] => .error PyErr.indexError
  | y :: _ => .ok y

/-- One optional field of `parse_s3url`:
`[x for x in segs if ext in x][0] if ext in s3url else None`. -/
def optFirstSegSub (ext s3url : Str) (segs : List Str) : Except PyErr (Option Str) :=
  if isSubOf ext s3url then
    match firstSegSub ext segs with
    | .error e => .error e
    | .ok y => .ok (some y)
  else .ok none

/-- `parse_s3url` (`src/sentinel2.py`, lines 43-53). -/
def parse_s3url (s3url : Str) : Except PyErr ParsedS3Url :=
  match s3url_to_s3path s3url with
  | .error e => .error e
  | .ok sp =>
    let slash_splits := splitOnC '/' sp.key
    match optFirstSegSub EXT_SAFE s3url slash_splits with
    | .error e => .error e
    | .ok sentinel2_id =>
      match optFirstSegSub EXT_JP2 s3url slash_splits with
      | .error e => .error e
      | .ok band_filename =>
        match optFirstSegSub EXT_XML s3url slash_splits with
        | .error e => .error e
        | .ok xml_filename => .ok ⟨sentinel2_id, band_filename, xml_filename⟩

/-- `s3url_to_download_folderpath` (`src/sentinel2.py`, lines 118-134). -/
def s3url_to_download_folderpath (s3url root_folderpath : Str) : Except PyErr Str :=
  if ¬ (VALID_S3URL_START.isPrefixOf s3url = true) then .error PyErr.invalidLocatorError
  else if ¬ (VALID_S3URL_END.isSuffixOf s3url = true ∨ EXT_SAFE.isSuffixOf s3url = true) then
    .error PyErr.invalidLocatorError
  else
    let ends_with := if VALID_S3URL_END.isSuffixOf s3url then VALID_S3URL_END else EXT_SAFE
    .ok (osPathJoin (root_folderpath ::
          splitOnC '/' (stripSuf ends_with (stripPre VALID_S3URL_START s3url))))

/-- The body of the destination loop of `get_s3paths_single_url`
(`src/sentinel2.py`, lines 201-215): for one kept object, decode its filename
and append the matching local destination (imagery keys get
`{folder}/{band}{ext}`, metadata keys get `{folder}/{xml segment}`). -/
def s2DestStep (satellite download_folderpath : Str) (acc : List Str) (s3path : S3Path) :
    Except PyErr (List Str) :=
  match parse_s3url (s3path_to_s3url s3path) with
  | .error e => .error e
  | .ok parsed =>
    if isSubOf EXT_JP2 s3path.key then
      match parsed.band_filename with
      | none => .error PyErr.attributeError
      | some bf =>
        match parse_band_filename bf satellite with
        | .error e => .error e
        | .ok pb =>
          .ok (acc ++ [osPathJoin [download_folderpath, pb.band ++ pb.ext]])
    else if isSubOf EXT_XML s3path.key then
      match parsed.xml_filename with
      | none => .error PyErr.attributeError
      | some xf => .ok (acc ++ [osPathJoin [download_folderpath, xf]])
    else .ok acc

/-- `get_s3paths_single_url` (`src/sentinel2.py`, lines 137-217).  The store
listing returned by `s3.Bucket(...).objects.filter(Prefix=...)` is supplied
as the `listing` parameter; the bucket/prefix filtering that call performs is
applied to it explicitly (spec section 6: all keys sharing the prefix). -/
def get_s3paths_single_url (s3url root_folderpath : Str) (bands : List Str)
    (satellite : Str) (listing : List S3Path) :
    Except PyErr (List S3Path × List Str) :=
  if ¬ (VALID_S3URL_START.isPrefixOf s3url = true) then .error PyErr.invalidLocatorError
  else if ¬ (VALID_S3URL_END.isSuffixOf s3url = true ∨ EXT_SAFE.isSuffixOf s3url = true) then
    .error PyErr.invalidLocatorError
  else
    match (if satellite = S2L1C_NAME then Except.ok (S2L1C_ALL, false)
           else if satellite = S2L2A_NAME then Except.ok (S2L2A_ALL, true)
           else Except.error PyErr.notImplementedError :
           Except PyErr (List Str × Bool)) with
    | .error e => .error e
    | .ok fam =>
      let all_bands := fam.1
      let add_s2l2a_suffix := fam.2
      let invalid_bands := bands.filter (fun b => decide (b ∉ all_bands))
      if invalid_bands ≠ [] then .error PyErr.unsupportedBandError
      else
        match parse_s3url s3url with
        | .error e => .error e
        | .ok pu =>
          match pu.id with
          | none => .error PyErr.attributeError
          | some sentinel2_id =>
            match exMapM (fun band =>
                get_band_filename sentinel2_id band EXT_JP2 add_s2l2a_suffix) bands with
            | .error e => .error e
            | .ok band_files =>
              let filenames_to_download := band_files ++ [MTD_TL_XML]
              match s3url_to_s3path s3url with
              | .error e => .error e
              | .ok root_s3path =>
                let all_files := listing.filter (fun f =>
                  f.bucket == root_s3path.bucket && root_s3path.key.isPrefixOf f.key)
                let s3paths := all_files.filter (fun f =>
                  filenames_to_download.any (fun fd => isSubOf fd f.key))
                match s3url_to_download_folderpath s3url root_folderpath with
                | .error e => .error e
                | .ok download_folderpath =>
                  match exFoldlM (s2DestStep satellite download_folderpath) [] s3paths with
                  | .error e => .error e
                  | .ok download_filepaths => .ok (s3paths, download_filepaths)

/-- `get_s3paths` (`src/sentinel2.py`, lines 220-261).  The order in which
`list(set(s3urls))` enumerates the distinct urls is unspecified in Python; it
is modelled as `List.dedup`.  The `mp.Pool(...).imap` fan-out preserves input
order and propagates the first worker exception, which is what mapping over
the deduplicated list models. -/
def get_s3paths (s3urls : List Str) (root_folderpath : Str) (bands : List Str)
    (satellite : Str) (listing : List S3Path) :
    Except PyErr (List S3Path × List Str) :=
  let unique_s3urls := s3urls.dedup
  match exMapM (fun u =>
      get_s3paths_single_url u root_folderpath bands satellite listing) unique_s3urls with
  | .error e => .error e
  | .ok list_of_tuple_of_lists =>
    .ok (list_of_tuple_of_lists.foldl
          (fun acc r => (acc.1 ++ r.1, acc.2 ++ r.2)) ([], []))

/-! Download layer (`src/utils.py`).  The local filesystem is modelled as the
set of existing file paths (`World`); the object-store transfer outcome is an
oracle `TransferEnv`: `transfer_ok p fp` tells whether
`bucket.download_file(p.prefix, fp)` succeeds (writing the file) or raises.
Directory creation (`os.makedirs`) does not affect file existence and is not
modelled.  The `mp.Pool(4).imap` fan-out returns outcomes in input order; it
is modelled as a sequential order-preserving run. -/

structure TransferEnv where
  transfer_ok : S3Path → Str → Bool

structure World where
  files : Str → Bool

/-- `bucket.download_file(s3_path.prefix, download_filepath)`: on success the
destination file exists; on failure the exception propagates. -/
def bucket_download_file (env : TransferEnv) (s3_path : S3Path) (download_filepath : Str)
    (w : World) : Except PyErr World :=
  if env.transfer_ok s3_path download_filepath then
    .ok ⟨fun s => if s = download_filepath then true else w.files s⟩
  else .error PyErr.transferError

/-- `download_s3_file` (`src/utils.py`, lines 249-305), print statements
omitted. -/
def download_s3_file (env : TransferEnv) (s3_path : S3Path)
    (download_filepath download_folderpath : Option Str) (overwrite : Bool)
    (w : World) : Except PyErr (Str × World) :=
  if download_filepath = none ∧ download_folderpath = none then .error PyErr.argumentError
  else
    let fp := match download_filepath with
      | some fp => fp
      | none => osPathJoin [download_folderpath.getD [],
                            (splitOnC '/' s3_path.key).getLastD []]
    let file_exists := w.files fp
    if !file_exists || overwrite then
      match bucket_download_file env s3_path fp w with
      | .error e => .error e
      | .ok w1 => .ok (fp, w1)
    else .ok (fp, w)

/-- `_download_s3_file_by_tuple` (`src/utils.py`, lines 308-337): any
exception is caught and converted into a `false` outcome; on a normal return
the outcome is `os.path.exists(download_filepath)`. -/
def _download_s3_file_by_tuple (env : TransferEnv) (t : S3Path × Str) (overwrite : Bool)
    (w : World) : Bool × World :=
  match download_s3_file env t.1 (some t.2) none overwrite w with
  | .ok r => (World.files r.2 t.2, r.2)
  | .error _ => (false, w)

/-- The pool run of `download_s3_files`: one worker call per (path, filepath)
tuple, outcomes in input order. -/
def downloadRun (env : TransferEnv) (overwrite : Bool) :
    List (S3Path × Str) → World → List Bool × World
  | [], w => ([], w)
  | t :: ts, w =>
    let r := _download_s3_file_by_tuple env t overwrite w
    let rest := downloadRun env overwrite ts r.2
    (r.1 :: rest.1, rest.2)

/-- `download_s3_files` (`src/utils.py`, lines 340-366). -/
def download_s3_files (env : TransferEnv) (s3_paths : List S3Path)
    (download_filepaths : List Str) (overwrite : Bool) (w : World) :
    Except PyErr (List Bool × World) :=
  if s3_paths.length ≠ download_filepaths.length then .error PyErr.mismatchedLengthError
  else .ok (downloadRun env overwrite (s3_paths.zip download_filepaths) w)

/-! General lemmas about the string model. -/

theorem splitOnC_ne_nil (c : Char) (s : Str) : splitOnC c s ≠ [] := by
  cases s with
  | nil => simp [splitOnC]
  | cons x xs =>
    simp only [splitOnC]
    cases splitOnC c xs with
    | nil => simp
    | cons r rs =>
      by_cases h : x = c <;> simp [h]

theorem splitOnC_no_sep {c : Char} {s : Str} (h : c ∉ s) : splitOnC c s = [s] := by
  induction s with
  | nil => rfl
  | cons x xs ih =>
    simp only [List.mem_cons, not_or] at h
    have hx : ¬ x = c := fun he => h.1 he.symm
    simp [splitOnC, ih h.2, hx]

theorem splitOnC_append {c : Char} {a : Str} (h : c ∉ a) (b : Str) :
    splitOnC c (a ++ c :: b) = a :: splitOnC c b := by
  induction a with
  | nil =>
    simp only [List.nil_append, splitOnC]
    cases hb : splitOnC c b with
    | nil => exact absurd hb (splitOnC_ne_nil c b)
    | cons r rs => simp
  | cons x xs ih =>
    simp only [List.mem_cons, not_or] at h
    have hx : ¬ x = c := fun he => h.1 he.symm
    simp only [List.cons_append, splitOnC, List.append_eq, ih h.2, hx, if_false]

theorem not_sep_of_mem_splitOnC {c : Char} {s x : Str} (h : x ∈ splitOnC c s) : c ∉ x := by
  induction s generalizing x with
  | nil =>
    simp only [splitOnC, List.mem_singleton] at h
    simp [h]
  | cons y ys ih =>
    rcases hys : splitOnC c ys with _ | ⟨r, rs⟩
    · exact absurd hys (splitOnC_ne_nil c ys)
    · simp only [splitOnC, hys] at h
      by_cases hy : y = c
      · rw [if_pos hy] at h
        rcases List.mem_cons.mp h with h1 | h2
        · simp [h1]
        · exact ih (hys ▸ h2)
      · rw [if_neg hy] at h
        rcases List.mem_cons.mp h with h1 | h2
        · subst h1
          intro hc
          rcases List.mem_cons.mp hc with h3 | h4
          · exact hy h3.symm
          · exact ih (hys ▸ List.mem_cons_self r rs) h4
        · exact ih (hys ▸ List.mem_cons.mpr (Or.inr h2))

theorem splitFirst_eq_some {c : Char} {s a b : Str} (h : splitFirst c s = some (a, b)) :
    s = a ++ c :: b ∧ c ∉ a := by
  induction s generalizing a b with
  | nil => simp [splitFirst] at h
  | cons x xs ih =>
    simp only [splitFirst] at h
    by_cases hx : x = c
    · rw [if_pos hx] at h
      simp only [Option.some.injEq, Prod.mk.injEq] at h
      refine ⟨?_, ?_⟩
      · rw [← h.1, ← h.2, hx]
        rfl
      · rw [← h.1]
        exact List.not_mem_nil c
    · rw [if_neg hx] at h
      rcases hs : splitFirst c xs with _ | ⟨a1, b1⟩
      · rw [hs] at h; simp at h
      · rw [hs] at h
        have h : (x :: a1, b1) = (a, b) := Option.some.inj h
        simp only [Prod.mk.injEq] at h
        obtain ⟨he, hn⟩ := ih hs
        constructor
        · rw [← h.1, ← h.2, List.cons_append, he]
        · rw [← h.1]
          intro hc
          rcases List.mem_cons.mp hc with h3 | h4
          · exact hx h3.symm
          · exact hn h4

theorem splitFirst_append {c : Char} {a : Str} (h : c ∉ a) (b : Str) :
    splitFirst c (a ++ c :: b) = some (a, b) := by
  induction a with
  | nil => simp [splitFirst]
  | cons x xs ih =>
    simp only [List.mem_cons, not_or] at h
    have hx : ¬ x = c := fun he => h.1 he.symm
    simp only [List.cons_append, splitFirst, List.append_eq, hx, if_false, ih h.2]
    rfl

theorem isSubOf_iff {x s : Str} : isSubOf x s = true ↔ x <:+: s := by
  induction s with
  | nil =>
    simp only [isSubOf, List.isEmpty_iff]
    constructor
    · intro h
      exact h ▸ List.infix_refl []
    · intro h
      exact List.eq_nil_of_infix_nil h
  | cons c rest ih =>
    simp only [isSubOf, Bool.or_eq_true, List.isPrefixOf_iff_prefix, ih]
    rw [List.infix_cons_iff]

theorem isSubOf_trans {x y z : Str} (h1 : isSubOf x y = true) (h2 : isSubOf y z = true) :
    isSubOf x z = true :=
  isSubOf_iff.mpr ((isSubOf_iff.mp h1).trans (isSubOf_iff.mp h2))

theorem isSubOf_append_left {x s : Str} (a : Str) (h : isSubOf x s = true) :
    isSubOf x (a ++ s) = true :=
  isSubOf_iff.mpr ((isSubOf_iff.mp h).trans (List.suffix_append a s).isInfix)

theorem isSubOf_of_suffix {x s : Str} (h : x <:+ s) : isSubOf x s = true :=
  isSubOf_iff.mpr h.isInfix

theorem exMapM_ok_mem {α β : Type} {f : α → Except PyErr β} {l : List α} {ys : List β}
    (h : exMapM f l = .ok ys) : ∀ y ∈ ys, ∃ x ∈ l, f x = .ok y := by
  induction l generalizing ys with
  | nil =>
    simp only [exMapM, Except.ok.injEq] at h
    subst h; simp
  | cons x xs ih =>
    simp only [exMapM] at h
    cases hx : f x with
    | error e => rw [hx] at h; simp at h
    | ok y0 =>
      rw [hx] at h
      cases hxs : exMapM f xs with
      | error e => rw [hxs] at h; simp at h
      | ok ys0 =>
        rw [hxs] at h
        simp only [Except.ok.injEq] at h
        subst h
        intro y hy
        rcases List.mem_cons.mp hy with h1 | h2
        · exact ⟨x, List.mem_cons_self x xs, h1 ▸ hx⟩
        · obtain ⟨x1, hx1, hfx1⟩ := ih hxs y h2
          exact ⟨x1, List.mem_cons.mpr (Or.inr hx1), hfx1⟩

theorem exMapM_of_all_ok {α β : Type} {f : α → Except PyErr β} {g : α → β} {l : List α}
    (h : ∀ x ∈ l, f x = .ok (g x)) : exMapM f l = .ok (l.map g) := by
  induction l with
  | nil => rfl
  | cons x xs ih =>
    simp only [exMapM, h x (List.mem_cons_self x xs),
      ih (fun y hy => h y (List.mem_cons.mpr (Or.inr hy))), List.map_cons]

/-! Lemmas about the locator model and the identifier parser. -/

theorem s3path_roundtrip {p : S3Path} (hb : ('/' : Char) ∉ p.bucket) :
    s3url_to_s3path (s3path_to_s3url p) = .ok p := by
  unfold s3path_to_s3url s3url_to_s3path
  have h1 : S3_SCHEME.isPrefixOf (S3_SCHEME ++ p.bucket ++ '/' :: p.key) = true := by
    rw [List.append_assoc]
    exact List.isPrefixOf_iff_prefix.mpr (List.prefix_append _ _)
  rw [if_pos h1, List.append_assoc, List.drop_left, splitFirst_append hb]

theorem s3url_to_s3path_of_start {s3url : Str}
    (h : VALID_S3URL_START.isPrefixOf s3url = true) :
    ∃ rest, s3url = VALID_S3URL_START ++ rest ∧
      s3url_to_s3path s3url = .ok ⟨("EODATA").data, rest⟩ := by
  obtain ⟨rest, hrest⟩ := List.isPrefixOf_iff_prefix.mp h
  refine ⟨rest, hrest.symm, ?_⟩
  rw [← hrest]
  have hshape : VALID_S3URL_START ++ rest =
      S3_SCHEME ++ (("EODATA").data ++ '/' :: rest) := rfl
  unfold s3url_to_s3path
  rw [hshape]
  have h1 : S3_SCHEME.isPrefixOf
      (S3_SCHEME ++ (("EODATA").data ++ '/' :: rest)) = true :=
    List.isPrefixOf_iff_prefix.mpr (List.prefix_append _ _)
  rw [if_pos h1, List.drop_left, splitFirst_append (by decide)]

theorem parse_sentinel2_id_ok {s : Str} {p : ParsedId}
    (h : parse_sentinel2_id s = .ok p) :
    splitOnC '_' (stripSuf EXT_SAFE s) =
      [p.mission_identifier, p.product_level, p.datatake_sensing_startdate,
       p.processing_baseline_number, p.relative_orbit_number, p.tile_number_field,
       p.product_discriminator] := by
  unfold parse_sentinel2_id at h
  rcases hl : splitOnC '_' (stripSuf EXT_SAFE s) with
    _ | ⟨a, _ | ⟨b, _ | ⟨c, _ | ⟨d, _ | ⟨e, _ | ⟨f, _ | ⟨g, _ | ⟨x, t⟩⟩⟩⟩⟩⟩⟩⟩ <;>
      rw [hl] at h
  · exact Except.noConfusion h
  · exact Except.noConfusion h
  · exact Except.noConfusion h
  · exact Except.noConfusion h
  · exact Except.noConfusion h
  · exact Except.noConfusion h
  · exact Except.noConfusion h
  · have hp := Except.ok.inj h
    rw [← hp]
  · exact Except.noConfusion h

theorem s2l1c_bands_clean :
    ∀ b ∈ S2L1C_ALL, ('_' : Char) ∉ b ∧ ('.' : Char) ∉ b := by decide

theorem s2l2a_bands_clean :
    ∀ b ∈ S2L2A_ALL, ('_' : Char) ∉ b ∧ ('.' : Char) ∉ b := by decide

theorem s2l2a_bands_grouped :
    ∀ b ∈ S2L2A_ALL, b ∈ S2L2A_20M_BANDS ∨ b ∈ S2L2A_10M_BANDS := by decide

/-! Decoding lemmas for well-formed band filenames. -/

theorem dotSplit_pair {stem ext1 : Str} (hs : ('.' : Char) ∉ stem)
    (he : ('.' : Char) ∉ ext1) :
    splitOnC '.' (stem ++ '.' :: ext1) = [stem, ext1] := by
  rw [splitOnC_append hs, splitOnC_no_sep he]

theorem parse_band_filename_pair {fname stem ext1 : Str} (sat : Str)
    (h : splitOnC '.' fname = [stem, ext1]) :
    parse_band_filename fname sat = pbfDispatch sat stem ext1 := by
  unfold parse_band_filename
  rw [h]

theorem pbfDispatch_l1c (ti st bd ext1 : Str)
    (hti : ('_' : Char) ∉ ti) (hst : ('_' : Char) ∉ st) (hbd : ('_' : Char) ∉ bd) :
    pbfDispatch S2L1C_NAME (ti ++ '_' :: st ++ '_' :: bd) ext1 =
      .ok ⟨ti, st, bd, '.' :: ext1⟩ := by
  unfold pbfDispatch
  rw [if_pos rfl]
  rw [show splitOnC '_' (ti ++ '_' :: st ++ '_' :: bd) = [ti, st, bd] from by
    simp only [List.cons_append, List.append_assoc]
    rw [splitOnC_append hti, splitOnC_append hst, splitOnC_no_sep hbd]]

theorem pbfDispatch_l2a (ti st bd r ext1 : Str)
    (hti : ('_' : Char) ∉ ti) (hst : ('_' : Char) ∉ st) (hbd : ('_' : Char) ∉ bd)
    (hr : ('_' : Char) ∉ r) :
    pbfDispatch S2L2A_NAME (ti ++ '_' :: st ++ '_' :: bd ++ '_' :: r) ext1 =
      .ok ⟨ti, st, bd, '.' :: ext1⟩ := by
  unfold pbfDispatch
  rw [if_neg (by decide), if_pos rfl]
  rw [show splitOnC '_' (ti ++ '_' :: st ++ '_' :: bd ++ '_' :: r) = [ti, st, bd, r] from by
    simp only [List.cons_append, List.append_assoc]
    rw [splitOnC_append hti, splitOnC_append hst, splitOnC_append hbd, splitOnC_no_sep hr]]

/-! Claim theorems. -/

/-- Claim C5: the product-identifier parser applied to
`S2A_MSIL1C_20230101T100000_N0500_R001_T32TQM_20230101T120000.SAFE` returns
exactly the seven fields mission `S2A`, product level `MSIL1C`, sensing start
`20230101T100000`, processing baseline `N0500`, relative orbit `R001`,
tile id `T32TQM`, discriminator `20230101T120000`; and every input that,
after stripping the `.SAFE` container suffix, does not split into exactly 7
underscore-delimited fields makes the parser fail with a FormatError. -/
theorem C5_identifier_parse :
    parse_sentinel2_id
        (("S2A_MSIL1C_20230101T100000_N0500_R001_T32TQM_20230101T120000.SAFE").data) =
      .ok ⟨("S2A").data, ("MSIL1C").data, ("20230101T100000").data, ("N0500").data,
           ("R001").data, ("T32TQM").data, ("20230101T120000").data⟩ ∧
    ∀ s : Str, (splitOnC '_' (stripSuf EXT_SAFE s)).length ≠ 7 →
      parse_sentinel2_id s = .error PyErr.formatError := by
  constructor
  · rfl
  · intro s h
    unfold parse_sentinel2_id
    rcases hl : splitOnC '_' (stripSuf EXT_SAFE s) with
      _ | ⟨a, _ | ⟨b, _ | ⟨c, _ | ⟨d, _ | ⟨e, _ | ⟨f, _ | ⟨g, _ | ⟨x, t⟩⟩⟩⟩⟩⟩⟩⟩
    · rfl
    · rfl
    · rfl
    · rfl
    · rfl
    · rfl
    · rfl
    · rw [hl] at h
      simp at h
    · rfl

/-- Witness for C5: a two-field identifier fails with FormatError. -/
theorem C5_identifier_parse_witness :
    parse_sentinel2_id (("A_B").data) = .error PyErr.formatError :=
  C5_identifier_parse.2 (("A_B").data) (by decide)

/-- Claim C9: for every URI accepted by the locator parser, formatting the
parsed locator reproduces the URI exactly (parse takes the first segment
after the scheme as bucket and the remainder after the first `/` as key);
and parsing any string that does not start with the scheme token — for
example `not-an-s3-uri` — fails with a FormatError, never partially
constructing a locator. -/
theorem C9_locator_roundtrip (u : Str) (p : S3Path) (h : s3url_to_s3path u = .ok p) :
    s3path_to_s3url p = u ∧
    ∀ v : Str, S3_SCHEME.isPrefixOf v = false →
      s3url_to_s3path v = .error PyErr.formatError := by
  refine ⟨?_, fun v hv => ?_⟩
  case refine_2 =>
    unfold s3url_to_s3path
    rw [if_neg (by simp [hv])]
  unfold s3url_to_s3path at h
  by_cases hs : S3_SCHEME.isPrefixOf u = true
  · rw [if_pos hs] at h
    rcases hsp : splitFirst '/' (u.drop S3_SCHEME.length) with _ | ⟨bk, ky⟩
    · rw [hsp] at h
      exact Except.noConfusion h
    · rw [hsp] at h
      have hp := Except.ok.inj h
      obtain ⟨he, _⟩ := splitFirst_eq_some hsp
      obtain ⟨rest, hrest⟩ := List.isPrefixOf_iff_prefix.mp hs
      rw [← hrest, List.drop_left] at he
      unfold s3path_to_s3url
      rw [← hp]
      show S3_SCHEME ++ bk ++ '/' :: ky = u
      rw [← hrest, he]
      simp [List.append_assoc]
  · rw [if_neg hs] at h
    exact Except.noConfusion h

/-- Witness for C9: the canonical URI of bucket `EODATA`, key `x`, and the
non-scheme string `not-an-s3-uri`. -/
theorem C9_locator_roundtrip_witness :
    s3path_to_s3url ⟨("EODATA").data, ("x").data⟩ = ("s3://EODATA/x").data ∧
    s3url_to_s3path (("not-an-s3-uri").data) = .error PyErr.formatError :=
  ⟨(C9_locator_roundtrip (("s3://EODATA/x").data)
      ⟨("EODATA").data, ("x").data⟩ rfl).1,
   (C9_locator_roundtrip (("s3://EODATA/x").data)
      ⟨("EODATA").data, ("x").data⟩ rfl).2 (("not-an-s3-uri").data) (by decide)⟩

/-- Counterexample to claim C7 as stated: the decoder of the suffixed family
does not validate the trailing resolution token.  `T_D_B_xyz.jp2` has an
extension separator and its stem splits into exactly 4 underscore-delimited
segments whose last segment `xyz` carries no recognized resolution token
(neither `20m` nor `10m`), so the claim requires a FormatError — yet the
decoder succeeds. -/
theorem C7_decode_errors_cex :
    parse_band_filename (("T_D_B_xyz.jp2").data) S2L2A_NAME =
      .ok ⟨("T").data, ("D").data, ("B").data, (".jp2").data⟩ ∧
    splitOnC '_' (("T_D_B_xyz").data) =
      [("T").data, ("D").data, ("B").data, ("xyz").data] ∧
    ¬ (("20m").data <:+ ("xyz").data) ∧ ¬ (("10m").data <:+ ("xyz").data) := by
  refine ⟨rfl, rfl, ?_, ?_⟩ <;> decide

/-- Claim C7 (amended): `decode` fails with a FormatError exactly when the
filename does not split into exactly two dot-delimited parts (one extension
separator), or when its stem does not split into exactly 3 (unsuffixed
family) resp. 4 (suffixed family) underscore-delimited segments; the trailing
resolution token of the suffixed family is not validated, and a filename
violating neither condition decodes without error to the first three
segments.  The original claim is refuted by `C7_decode_errors_cex`. -/
theorem C7_decode_errors (fname satellite : Str)
    (hsat : satellite = S2L1C_NAME ∨ satellite = S2L2A_NAME) :
    ((splitOnC '.' fname).length ≠ 2 →
      parse_band_filename fname satellite = .error PyErr.formatError) ∧
    (∀ stem ext1, splitOnC '.' fname = [stem, ext1] →
      (((splitOnC '_' stem).length = (if satellite = S2L1C_NAME then 3 else 4) →
        parse_band_filename fname satellite =
          .ok ⟨(splitOnC '_' stem).getD 0 [], (splitOnC '_' stem).getD 1 [],
               (splitOnC '_' stem).getD 2 [], '.' :: ext1⟩) ∧
       ((splitOnC '_' stem).length ≠ (if satellite = S2L1C_NAME then 3 else 4) →
        parse_band_filename fname satellite = .error PyErr.formatError))) := by
  constructor
  · intro hlen
    unfold parse_band_filename
    rcases hd : splitOnC '.' fname with _ | ⟨s1, _ | ⟨s2, _ | ⟨s3, t⟩⟩⟩
    · rfl
    · rfl
    · rw [hd] at hlen
      simp at hlen
    · rfl
  · intro stem ext1 hd
    rw [parse_band_filename_pair satellite hd]
    rcases hsat with h1 | h1 <;> rw [h1]
    · rw [show (if S2L1C_NAME = S2L1C_NAME then 3 else 4) = 3 from rfl]
      unfold pbfDispatch
      rw [if_pos rfl]
      rcases hst : splitOnC '_' stem with _ | ⟨a, _ | ⟨b, _ | ⟨c, _ | ⟨d, t⟩⟩⟩⟩
      · exact ⟨fun hlen => by simp at hlen, fun _ => rfl⟩
      · exact ⟨fun hlen => by simp at hlen, fun _ => rfl⟩
      · exact ⟨fun hlen => by simp at hlen, fun _ => rfl⟩
      · exact ⟨fun _ => rfl, fun hlen => absurd rfl hlen⟩
      · exact ⟨fun hlen => by simp at hlen, fun _ => rfl⟩
    · rw [show (if S2L2A_NAME = S2L1C_NAME then 3 else 4) = 4 from rfl]
      unfold pbfDispatch
      rw [if_neg (by decide), if_pos rfl]
      rcases hst : splitOnC '_' stem with _ | ⟨a, _ | ⟨b, _ | ⟨c, _ | ⟨d, _ | ⟨e, t⟩⟩⟩⟩⟩
      · exact ⟨fun hlen => by simp at hlen, fun _ => rfl⟩
      · exact ⟨fun hlen => by simp at hlen, fun _ => rfl⟩
      · exact ⟨fun hlen => by simp at hlen, fun _ => rfl⟩
      · exact ⟨fun hlen => by simp at hlen, fun _ => rfl⟩
      · exact ⟨fun _ => rfl, fun hlen => absurd rfl hlen⟩
      · exact ⟨fun hlen => by simp at hlen, fun _ => rfl⟩

/-- Witness for C7 (amended): a 3-segment unsuffixed filename decodes, a
2-segment one fails. -/
theorem C7_decode_errors_witness :
    parse_band_filename (("a_b_c.jp2").data) S2L1C_NAME =
      .ok ⟨("a").data, ("b").data, ("c").data, (".jp2").data⟩ ∧
    parse_band_filename (("a_b.jp2").data) S2L1C_NAME = .error PyErr.formatError := by
  constructor
  · exact (((C7_decode_errors (("a_b_c.jp2").data) S2L1C_NAME (Or.inl rfl)).2
      (("a_b_c").data) (("jp2").data) (by rfl)).1 (by rfl))
  · exact (((C7_decode_errors (("a_b.jp2").data) S2L1C_NAME (Or.inl rfl)).2
      (("a_b").data) (("jp2").data) (by rfl)).2 (by decide))

/-- Claim C6: with the suffixed family selected (`add_s2l2a_suffix = true`),
encode appends `_20m` exactly for B01, B05, B06, B07, B8A, B09, B11, B12,
SCL, appends `_10m` exactly for B02, B03, B04, B08, and raises the
UnsupportedBandError for every band code outside both groups; with the
unsuffixed family no suffix is appended for any band code. -/
theorem C6_suffix_policy (sentinel2_id band ext : Str) (p : ParsedId)
    (hp : parse_sentinel2_id sentinel2_id = .ok p) :
    (band ∈ S2L2A_20M_BANDS →
      get_band_filename sentinel2_id band ext true =
        .ok (p.tile_number_field ++ '_' :: p.datatake_sensing_startdate ++
             '_' :: band ++ ("_20m").data ++ ext)) ∧
    (band ∈ S2L2A_10M_BANDS →
      get_band_filename sentinel2_id band ext true =
        .ok (p.tile_number_field ++ '_' :: p.datatake_sensing_startdate ++
             '_' :: band ++ ("_10m").data ++ ext)) ∧
    (band ∉ S2L2A_20M_BANDS → band ∉ S2L2A_10M_BANDS →
      get_band_filename sentinel2_id band ext true =
        .error PyErr.unsupportedBandError) ∧
    get_band_filename sentinel2_id band ext false =
      .ok (p.tile_number_field ++ '_' :: p.datatake_sensing_startdate ++
           '_' :: band ++ ext) := by
  refine ⟨fun h20 => ?_, fun h10 => ?_, fun h20 h10 => ?_, ?_⟩
  · simp [get_band_filename, hp, h20]
  · have h20 : band ∉ S2L2A_20M_BANDS := fun h =>
      (by decide : ∀ b ∈ S2L2A_10M_BANDS, b ∉ S2L2A_20M_BANDS) band h10 h
    simp [get_band_filename, hp, h20, h10]
  · simp [get_band_filename, hp, h20, h10]
  · simp [get_band_filename, hp]

/-- Witness for C6: B01 gets `_20m`, an unknown band code fails. -/
theorem C6_suffix_policy_witness :
    get_band_filename
        (("S2A_MSIL1C_20230101T100000_N0500_R001_T32TQM_20230101T120000.SAFE").data)
        (("B01").data) ((".jp2").data) true =
      .ok (("T32TQM_20230101T100000_B01_20m.jp2").data) ∧
    get_band_filename
        (("S2A_MSIL1C_20230101T100000_N0500_R001_T32TQM_20230101T120000.SAFE").data)
        (("ZZZ").data) ((".jp2").data) true = .error PyErr.unsupportedBandError := by
  constructor
  · exact (C6_suffix_policy
      (("S2A_MSIL1C_20230101T100000_N0500_R001_T32TQM_20230101T120000.SAFE").data)
      (("B01").data) ((".jp2").data)
      ⟨("S2A").data, ("MSIL1C").data, ("20230101T100000").data, ("N0500").data,
       ("R001").data, ("T32TQM").data, ("20230101T120000").data⟩ rfl).1 (by decide)
  · exact (C6_suffix_policy
      (("S2A_MSIL1C_20230101T100000_N0500_R001_T32TQM_20230101T120000.SAFE").data)
      (("ZZZ").data) ((".jp2").data)
      ⟨("S2A").data, ("MSIL1C").data, ("20230101T100000").data, ("N0500").data,
       ("R001").data, ("T32TQM").data, ("20230101T120000").data⟩ rfl).2.2.1
      (by decide) (by decide)

/-- Claim C1: for every product identifier accepted by the identifier parser
whose tile id and sensing-start token contain no dot (they can contain no
underscore, being parser outputs), and every band code in the declared
family's band set, decoding the filename produced by encode
(`get_band_filename`) via decode (`parse_band_filename` with the same
family) recovers exactly that tile id, sensing-start token and band code,
with the extension recovered separately; for the suffixed family, decode
strips the resolution suffix that encode appended. -/
theorem C1_codec_roundtrip (sentinel2_id band ext1 : Str) (p : ParsedId) (l2a : Bool)
    (hp : parse_sentinel2_id sentinel2_id = .ok p)
    (hti : ('.' : Char) ∉ p.tile_number_field)
    (hst : ('.' : Char) ∉ p.datatake_sensing_startdate)
    (he1 : ('.' : Char) ∉ ext1)
    (hband : band ∈ (if l2a then S2L2A_ALL else S2L1C_ALL)) :
    ∃ fn, get_band_filename sentinel2_id band ('.' :: ext1) l2a = .ok fn ∧
      parse_band_filename fn (if l2a then S2L2A_NAME else S2L1C_NAME) =
        .ok ⟨p.tile_number_field, p.datatake_sensing_startdate, band, '.' :: ext1⟩ := by
  have hsplit := parse_sentinel2_id_ok hp
  have hti_u : ('_' : Char) ∉ p.tile_number_field :=
    not_sep_of_mem_splitOnC (c := '_') (by rw [hsplit]; simp)
  have hst_u : ('_' : Char) ∉ p.datatake_sensing_startdate :=
    not_sep_of_mem_splitOnC (c := '_') (by rw [hsplit]; simp)
  have hdu : ('.' : Char) ≠ '_' := by decide
  cases l2a with
  | false =>
    simp only [Bool.false_eq_true, if_false] at hband ⊢
    obtain ⟨hb_u, hb_d⟩ := s2l1c_bands_clean band hband
    refine ⟨p.tile_number_field ++ '_' :: p.datatake_sensing_startdate ++
      '_' :: band ++ '.' :: ext1, ?_, ?_⟩
    · simp [get_band_filename, hp]
    · have hstem : ('.' : Char) ∉ (p.tile_number_field ++
          '_' :: p.datatake_sensing_startdate ++ '_' :: band) := by
        simp [List.mem_append, List.mem_cons, hti, hst, hb_d, hdu]
      have hshape : p.tile_number_field ++ '_' :: p.datatake_sensing_startdate ++
          '_' :: band ++ '.' :: ext1 =
          (p.tile_number_field ++ '_' :: p.datatake_sensing_startdate ++
           '_' :: band) ++ '.' :: ext1 := by
        simp [List.append_assoc, List.cons_append]
      rw [parse_band_filename_pair S2L1C_NAME (hshape ▸ dotSplit_pair hstem he1)]
      exact pbfDispatch_l1c _ _ _ _ hti_u hst_u hb_u
  | true =>
    simp only [eq_self_iff_true, if_true] at hband ⊢
    obtain ⟨hb_u, hb_d⟩ := s2l2a_bands_clean band hband
    rcases s2l2a_bands_grouped band hband with h20 | h10
    · refine ⟨p.tile_number_field ++ '_' :: p.datatake_sensing_startdate ++
        '_' :: band ++ ("_20m").data ++ '.' :: ext1, ?_, ?_⟩
      · simp [get_band_filename, hp, h20]
      · have hstem : ('.' : Char) ∉ (p.tile_number_field ++
            '_' :: p.datatake_sensing_startdate ++ '_' :: band ++ ("_20m").data) := by
          simp [List.mem_append, List.mem_cons, hti, hst, hb_d, hdu]
        have hshape : p.tile_number_field ++ '_' :: p.datatake_sensing_startdate ++
            '_' :: band ++ ("_20m").data ++ '.' :: ext1 =
            (p.tile_number_field ++ '_' :: p.datatake_sensing_startdate ++
             '_' :: band ++ ("_20m").data) ++ '.' :: ext1 := by
          simp [List.append_assoc, List.cons_append]
        have hdot : splitOnC '.' (p.tile_number_field ++
            '_' :: p.datatake_sensing_startdate ++ '_' :: band ++ ("_20m").data ++
            '.' :: ext1) =
            [p.tile_number_field ++ '_' :: p.datatake_sensing_startdate ++
             '_' :: band ++ ("_20m").data, ext1] := by
          rw [hshape]
          exact dotSplit_pair hstem he1
        rw [parse_band_filename_pair S2L2A_NAME hdot]
        exact pbfDispatch_l2a p.tile_number_field p.datatake_sensing_startdate band
          (("20m").data) ext1 hti_u hst_u hb_u (by decide)
    · refine ⟨p.tile_number_field ++ '_' :: p.datatake_sensing_startdate ++
        '_' :: band ++ ("_10m").data ++ '.' :: ext1, ?_, ?_⟩
      · have h20 : band ∉ S2L2A_20M_BANDS := fun h =>
          (by decide : ∀ b ∈ S2L2A_10M_BANDS, b ∉ S2L2A_20M_BANDS) band h10 h
        simp [get_band_filename, hp, h20, h10]
      · have hstem : ('.' : Char) ∉ (p.tile_number_field ++
            '_' :: p.datatake_sensing_startdate ++ '_' :: band ++ ("_10m").data) := by
          simp [List.mem_append, List.mem_cons, hti, hst, hb_d, hdu]
        have hshape : p.tile_number_field ++ '_' :: p.datatake_sensing_startdate ++
            '_' :: band ++ ("_10m").data ++ '.' :: ext1 =
            (p.tile_number_field ++ '_' :: p.datatake_sensing_startdate ++
             '_' :: band ++ ("_10m").data) ++ '.' :: ext1 := by
          simp [List.append_assoc, List.cons_append]
        have hdot : splitOnC '.' (p.tile_number_field ++
            '_' :: p.datatake_sensing_startdate ++ '_' :: band ++ ("_10m").data ++
            '.' :: ext1) =
            [p.tile_number_field ++ '_' :: p.datatake_sensing_startdate ++
             '_' :: band ++ ("_10m").data, ext1] := by
          rw [hshape]
          exact dotSplit_pair hstem he1
        rw [parse_band_filename_pair S2L2A_NAME hdot]
        exact pbfDispatch_l2a p.tile_number_field p.datatake_sensing_startdate band
          (("10m").data) ext1 hti_u hst_u hb_u (by decide)

/-- Witness for C1: the example identifier, band B8A of the suffixed family,
extension `.jp2`. -/
theorem C1_codec_roundtrip_witness :
    ∃ fn, get_band_filename
        (("S2A_MSIL1C_20230101T100000_N0500_R001_T32TQM_20230101T120000.SAFE").data)
        (("B8A").data) ('.' :: ("jp2").data) true = .ok fn ∧
      parse_band_filename fn S2L2A_NAME =
        .ok ⟨("T32TQM").data, ("20230101T100000").data, ("B8A").data,
             '.' :: ("jp2").data⟩ :=
  C1_codec_roundtrip
    (("S2A_MSIL1C_20230101T100000_N0500_R001_T32TQM_20230101T120000.SAFE").data)
    (("B8A").data) (("jp2").data)
    ⟨("S2A").data, ("MSIL1C").data, ("20230101T100000").data, ("N0500").data,
     ("R001").data, ("T32TQM").data, ("20230101T120000").data⟩ true rfl
    (by decide) (by decide) (by decide) (by decide)

/-- Claim C3: if any element of the requested band list is not in the
declared family's known band set, the resolver raises the
UnsupportedBandError, and it does so for every possible store listing — the
listing parameter is never consulted, which is the model of performing zero
store-listing calls (in the source the band check at lines 161-164 precedes
the `boto3` client construction at line 180) — and no band of the product is
resolved: the whole call fails with no partial result. -/
theorem C3_invalid_band_fail_fast (s3url root_folderpath : Str) (bands : List Str)
    (satellite : Str) (b : Str)
    (hstart : VALID_S3URL_START.isPrefixOf s3url = true)
    (hend : VALID_S3URL_END.isSuffixOf s3url = true ∨ EXT_SAFE.isSuffixOf s3url = true)
    (hsat : satellite = S2L1C_NAME ∨ satellite = S2L2A_NAME)
    (hb : b ∈ bands)
    (hbad : b ∉ (if satellite = S2L1C_NAME then S2L1C_ALL else S2L2A_ALL)) :
    ∀ listing, get_s3paths_single_url s3url root_folderpath bands satellite listing =
      .error PyErr.unsupportedBandError := by
  intro listing
  unfold get_s3paths_single_url
  rw [if_neg (not_not_intro hstart), if_neg (not_not_intro hend)]
  rcases hsat with h1 | h1 <;> subst h1
  · rw [if_pos rfl] at hbad
    rw [if_pos rfl]
    simp
    intro hall
    exact absurd (hall b hb) hbad
  · rw [if_neg (by decide : ¬ (S2L2A_NAME = S2L1C_NAME))] at hbad
    rw [if_neg (by decide), if_pos rfl]
    simp
    intro hall
    exact absurd (hall b hb) hbad

/-- Witness for C3: an unknown band `XYZ` fails the resolver for every
listing, here the empty listing. -/
theorem C3_invalid_band_fail_fast_witness :
    get_s3paths_single_url (("s3://EODATA/a.SAFE").data) (("r").data)
      [("XYZ").data] S2L1C_NAME [] = .error PyErr.unsupportedBandError :=
  C3_invalid_band_fail_fast (("s3://EODATA/a.SAFE").data) (("r").data)
    [("XYZ").data] S2L1C_NAME (("XYZ").data) (by decide) (Or.inr (by decide))
    (Or.inl rfl) (by decide) (by decide) []

/-! Lemmas about the download model. -/

/-- Unfolding of `download_s3_file` when an explicit destination filepath is
supplied: the argument check passes and the destination is the given path. -/
theorem download_s3_file_some (env : TransferEnv) (p : S3Path) (fp : Str)
    (overwrite : Bool) (w : World) :
    download_s3_file env p (some fp) none overwrite w =
      (if !w.files fp || overwrite then
        match bucket_download_file env p fp w with
        | .error e => .error e
        | .ok w1 => .ok (fp, w1)
      else .ok (fp, w)) := by
  simp [download_s3_file]

theorem download_s3_file_some_fp (env : TransferEnv) (p : S3Path) (fp : Str)
    (overwrite : Bool) (w : World) (r : Str × World)
    (h : download_s3_file env p (some fp) none overwrite w = .ok r) : r.1 = fp := by
  rw [download_s3_file_some env p fp overwrite w] at h
  by_cases hc : (!w.files fp || overwrite) = true
  · rw [if_pos hc] at h
    cases hb : bucket_download_file env p fp w with
    | error e =>
      rw [hb] at h
      exact Except.noConfusion h
    | ok w1 =>
      rw [hb] at h
      rw [← Except.ok.inj h]
  · rw [if_neg hc] at h
    rw [← Except.ok.inj h]

theorem downloadRun_length (env : TransferEnv) (overwrite : Bool)
    (ps : List (S3Path × Str)) (w : World) :
    (downloadRun env overwrite ps w).1.length = ps.length := by
  induction ps generalizing w with
  | nil => rfl
  | cons t ts ih => simp [downloadRun, ih]

theorem downloadRun_getD (env : TransferEnv) (overwrite : Bool)
    (ps : List (S3Path × Str)) (w : World) (i : Nat) (hi : i < ps.length) :
    (downloadRun env overwrite ps w).1.getD i false =
      (_download_s3_file_by_tuple env (ps.getD i ⟨⟨[], []⟩, []⟩) overwrite
        (downloadRun env overwrite (ps.take i) w).2).1 := by
  induction ps generalizing w i with
  | nil => simp at hi
  | cons t ts ih =>
    cases i with
    | zero => rfl
    | succ n =>
      simp only [downloadRun, List.getD_cons_succ, List.take_succ_cons]
      exact ih _ n (by simpa using hi)

/-- Claim C10: the per-item worker returns `true` exactly when no exception
escaped the attempt and the destination file exists afterwards; a
destination that already exists with `overwrite = false` yields `true` with
the filesystem unchanged and without any transfer (the outcome is the same
for every transfer oracle `env`), so a skipped already-present item is
indistinguishable from a freshly downloaded one in the outcome list, which
by type carries only the two values true and false. -/
theorem C10_worker_outcome (env : TransferEnv) (p : S3Path) (fp : Str)
    (overwrite : Bool) (w : World) :
    ((_download_s3_file_by_tuple env (p, fp) overwrite w).1 = true ↔
      ∃ w1, download_s3_file env p (some fp) none overwrite w = .ok (fp, w1) ∧
        w1.files fp = true) ∧
    (w.files fp = true → overwrite = false →
      _download_s3_file_by_tuple env (p, fp) overwrite w = (true, w)) := by
  constructor
  · constructor
    · intro htrue
      unfold _download_s3_file_by_tuple at htrue
      cases hd : download_s3_file env p (some fp) none overwrite w with
      | error e =>
        rw [hd] at htrue
        simp at htrue
      | ok r =>
        obtain ⟨r1, r2⟩ := r
        have h1 : r1 = fp :=
          download_s3_file_some_fp env p fp overwrite w (r1, r2) hd
        subst h1
        rw [hd] at htrue
        exact ⟨r2, rfl, htrue⟩
    · rintro ⟨w1, hok, hw⟩
      unfold _download_s3_file_by_tuple
      rw [hok]
      exact hw
  · intro hex hov
    unfold _download_s3_file_by_tuple
    rw [download_s3_file_some env p fp overwrite w, if_neg (by simp [hex, hov])]
    simp [hex]

/-- Witness for C10: an already-present destination with `overwrite = false`
is reported as `true` with no transfer, under an oracle that would fail any
transfer. -/
theorem C10_worker_outcome_witness :
    _download_s3_file_by_tuple ⟨fun _ _ => false⟩ (⟨("b").data, ("k").data⟩, ("f").data)
      false ⟨fun _ => true⟩ = (true, ⟨fun _ => true⟩) :=
  (C10_worker_outcome ⟨fun _ _ => false⟩ ⟨("b").data, ("k").data⟩ (("f").data)
    false ⟨fun _ => true⟩).2 rfl rfl

/-- Claim C4: `download_s3_files` raises the MismatchedLengthError exactly
when the locator and destination lists have different lengths, eagerly (the
error does not depend on the transfer oracle or on the filesystem, no work
is dispatched); otherwise it never raises: it returns exactly one boolean
outcome per input pair, and the i-th outcome is exactly the result of the
per-item worker on the i-th pair (run in the world left by the preceding
items), whose failures are caught and converted to `false` — one item's
failure never aborts the batch. -/
theorem C4_download_batch (env : TransferEnv) (s3_paths : List S3Path)
    (download_filepaths : List Str) (overwrite : Bool) (w : World) (i : Nat) :
    download_s3_files env s3_paths download_filepaths overwrite w =
      (if s3_paths.length = download_filepaths.length then
        .ok (downloadRun env overwrite (s3_paths.zip download_filepaths) w)
      else .error PyErr.mismatchedLengthError) ∧
    (downloadRun env overwrite (s3_paths.zip download_filepaths) w).1.length =
      min s3_paths.length download_filepaths.length ∧
    (i < (s3_paths.zip download_filepaths).length →
      (downloadRun env overwrite (s3_paths.zip download_filepaths) w).1.getD i false =
        (_download_s3_file_by_tuple env
          ((s3_paths.zip download_filepaths).getD i ⟨⟨[], []⟩, []⟩) overwrite
          (downloadRun env overwrite
            ((s3_paths.zip download_filepaths).take i) w).2).1) := by
  refine ⟨?_, ?_, fun hi => downloadRun_getD env overwrite _ w i hi⟩
  · unfold download_s3_files
    by_cases h : s3_paths.length = download_filepaths.length
    · rw [if_neg (not_not_intro h), if_pos h]
    · rw [if_pos h, if_neg h]
  · rw [downloadRun_length, List.length_zip]

/-- Witness for C4: a one-element batch whose only transfer fails still
returns a full outcome list. -/
theorem C4_download_batch_witness :
    download_s3_files ⟨fun _ _ => false⟩ [⟨("b").data, ("k").data⟩] [("f").data]
      false ⟨fun _ => false⟩ =
      .ok (downloadRun ⟨fun _ _ => false⟩ false
        ([⟨("b").data, ("k").data⟩].zip [("f").data]) ⟨fun _ => false⟩) ∧
    (downloadRun ⟨fun _ _ => false⟩ false
      ([⟨("b").data, ("k").data⟩].zip [("f").data]) ⟨fun _ => false⟩).1.getD 0 false =
      (_download_s3_file_by_tuple ⟨fun _ _ => false⟩
        (([⟨("b").data, ("k").data⟩].zip [("f").data]).getD 0 ⟨⟨[], []⟩, []⟩) false
        (downloadRun ⟨fun _ _ => false⟩ false
          (([⟨("b").data, ("k").data⟩].zip [("f").data]).take 0) ⟨fun _ => false⟩).2).1 := by
  have h := C4_download_batch ⟨fun _ _ => false⟩ [⟨("b").data, ("k").data⟩]
    [("f").data] false ⟨fun _ => false⟩ 0
  refine ⟨?_, h.2.2 (by decide)⟩
  have h1 := h.1
  simpa using h1

/-- The accumulation loop of `get_s3paths` flattens the per-url result
pairs. -/
theorem foldl_pair_append {α β : Type} (rs : List (List α × List β))
    (a : List α) (b : List β) :
    rs.foldl (fun acc r => (acc.1 ++ r.1, acc.2 ++ r.2)) (a, b) =
      (a ++ (rs.map (fun r => r.1)).flatten, b ++ (rs.map (fun r => r.2)).flatten) := by
  induction rs generalizing a b with
  | nil => simp
  | cons r rs ih => simp [ih, List.append_assoc]

/-- Count of a member of a duplicate-free list, for the default `BEq`
instance of the model strings. -/
theorem count_one_of_nodup {l : List Str} {u : Str} (hn : l.Nodup) (hu : u ∈ l) :
    l.count u = 1 := by
  induction l with
  | nil => simp at hu
  | cons x xs ih =>
    rcases List.mem_cons.mp hu with h1 | h2
    · subst h1
      have hx : u ∉ xs := (List.nodup_cons.mp hn).1
      rw [List.count_cons_self, List.count_eq_zero.mpr hx]
    · have hne : u ≠ x := fun he => (List.nodup_cons.mp hn).1 (he ▸ h2)
      rw [List.count_cons_of_ne hne]
      exact ih (List.nodup_cons.mp hn).2 h2

/-- Claim C8: the batch resolver deduplicates its input before dispatch —
the per-locator resolver is invoked exactly once per distinct locator string
(the dispatched list has no duplicates and contains each input locator
exactly once), and the returned pair of lists is the concatenation of the
per-unique-locator result pairs. -/
theorem C8_dedup_resolver (s3urls : List Str) (root_folderpath : Str)
    (bands : List Str) (satellite : Str) (listing : List S3Path)
    (r : Str → List S3Path × List Str)
    (h : ∀ u ∈ s3urls.dedup, get_s3paths_single_url u root_folderpath bands satellite
      listing = .ok (r u)) :
    s3urls.dedup.Nodup ∧
    (∀ u ∈ s3urls, s3urls.dedup.count u = 1) ∧
    get_s3paths s3urls root_folderpath bands satellite listing =
      .ok ((s3urls.dedup.map (fun u => (r u).1)).flatten,
           (s3urls.dedup.map (fun u => (r u).2)).flatten) := by
  refine ⟨List.nodup_dedup s3urls,
    fun u hu => count_one_of_nodup (List.nodup_dedup s3urls)
      (List.mem_dedup.mpr hu), ?_⟩
  simp only [get_s3paths]
  rw [exMapM_of_all_ok h]
  show Except.ok ((s3urls.dedup.map r).foldl
    (fun acc q => (acc.1 ++ q.1, acc.2 ++ q.2)) ([], [])) = _
  rw [foldl_pair_append]
  simp only [List.map_map, List.nil_append, Except.ok.injEq, Prod.mk.injEq]
  exact ⟨rfl, rfl⟩

/-- Witness for C8: a duplicated root locator is dispatched once and the
results are concatenated. -/
theorem C8_dedup_resolver_witness :
    get_s3paths [("s3://EODATA/a.SAFE").data, ("s3://EODATA/a.SAFE").data]
      (("r").data) [] S2L1C_NAME [] = .ok ([], []) ∧
    ([("s3://EODATA/a.SAFE").data, ("s3://EODATA/a.SAFE").data].dedup).count
      (("s3://EODATA/a.SAFE").data) = 1 := by
  have h := C8_dedup_resolver
    [("s3://EODATA/a.SAFE").data, ("s3://EODATA/a.SAFE").data]
    (("r").data) [] S2L1C_NAME []
    (fun _ => (([] : List S3Path), ([] : List Str)))
    (fun u hu => by
      have hu2 : u = ("s3://EODATA/a.SAFE").data := by
        have := List.mem_dedup.mp hu
        simpa using this
      rw [hu2]
      rfl)
  refine ⟨?_, h.2.1 (("s3://EODATA/a.SAFE").data) (by simp)⟩
  have h3 := h.2.2
  have hde : ([("s3://EODATA/a.SAFE").data, ("s3://EODATA/a.SAFE").data] :
      List Str).dedup = [("s3://EODATA/a.SAFE").data] := by decide
  rw [hde] at h3
  simpa using h3

/-! Lemmas for the path resolver (claim C2). -/

/-- Destination specification for one kept key of `get_s3paths_single_url`:
an imagery key (one containing the imagery extension) is assigned
`{folder}/{band}{ext}` with band and ext decoded from the key's first
imagery-extension path segment; any other kept (metadata) key is assigned
`{folder}/{seg}` where seg is the key's first metadata-extension path
segment.  In both cases the destination lies directly in the single
directory `folder`. -/
def destSpec (satellite download_folderpath : Str) (p : S3Path) (dest : Str) : Prop :=
  (isSubOf EXT_JP2 p.key = true ∧
    ∃ bf rest pb,
      (splitOnC '/' p.key).filter (fun x => isSubOf EXT_JP2 x) = bf :: rest ∧
      parse_band_filename bf satellite = .ok pb ∧
      dest = osPathJoin [download_folderpath, pb.band ++ pb.ext]) ∨
  (isSubOf EXT_JP2 p.key = false ∧ isSubOf EXT_XML p.key = true ∧
    ∃ xf rest,
      (splitOnC '/' p.key).filter (fun x => isSubOf EXT_XML x) = xf :: rest ∧
      dest = osPathJoin [download_folderpath, xf])

theorem optFirstSegSub_ok_true {ext u : Str} {segs : List Str} {o : Option Str}
    (hc : isSubOf ext u = true) (h : optFirstSegSub ext u segs = .ok o) :
    ∃ y rest, segs.filter (fun x => isSubOf ext x) = y :: rest ∧ o = some y := by
  unfold optFirstSegSub firstSegSub at h
  rw [if_pos hc] at h
  cases hf : segs.filter (fun x => isSubOf ext x) with
  | nil =>
    rw [hf] at h
    exact Except.noConfusion h
  | cons y rest =>
    rw [hf] at h
    exact ⟨y, rest, rfl, (Except.ok.inj h).symm⟩

theorem parse_s3url_ok_fields {u : Str} {pu : ParsedS3Url}
    (h : parse_s3url u = .ok pu) :
    ∃ sp, s3url_to_s3path u = .ok sp ∧
      (isSubOf EXT_JP2 u = true →
        ∃ bf rest, (splitOnC '/' sp.key).filter (fun x => isSubOf EXT_JP2 x) =
          bf :: rest ∧ pu.band_filename = some bf) ∧
      (isSubOf EXT_XML u = true →
        ∃ xf rest, (splitOnC '/' sp.key).filter (fun x => isSubOf EXT_XML x) =
          xf :: rest ∧ pu.xml_filename = some xf) := by
  unfold parse_s3url at h
  cases hsp : s3url_to_s3path u with
  | error e =>
    rw [hsp] at h
    exact Except.noConfusion h
  | ok sp =>
    rw [hsp] at h
    dsimp only at h
    cases h1 : optFirstSegSub EXT_SAFE u (splitOnC '/' sp.key) with
    | error e =>
      rw [h1] at h
      exact Except.noConfusion h
    | ok o1 =>
      rw [h1] at h
      dsimp only at h
      cases h2 : optFirstSegSub EXT_JP2 u (splitOnC '/' sp.key) with
      | error e =>
        rw [h2] at h
        exact Except.noConfusion h
      | ok o2 =>
        rw [h2] at h
        dsimp only at h
        cases h3 : optFirstSegSub EXT_XML u (splitOnC '/' sp.key) with
        | error e =>
          rw [h3] at h
          exact Except.noConfusion h
        | ok o3 =>
          rw [h3] at h
          dsimp only at h
          have hpu := Except.ok.inj h
          refine ⟨sp, rfl, fun hc => ?_, fun hc => ?_⟩
          · obtain ⟨y, rest, hf, ho⟩ := optFirstSegSub_ok_true hc h2
            refine ⟨y, rest, hf, ?_⟩
            rw [← hpu]
            exact ho
          · obtain ⟨y, rest, hf, ho⟩ := optFirstSegSub_ok_true hc h3
            refine ⟨y, rest, hf, ?_⟩
            rw [← hpu]
            exact ho

theorem isSubOf_url {x : Str} (p : S3Path) (h : isSubOf x p.key = true) :
    isSubOf x (s3path_to_s3url p) = true := by
  unfold s3path_to_s3url
  have h1 : isSubOf x ('/' :: p.key) = true := by
    rw [show ('/' :: p.key : Str) = ['/'] ++ p.key from rfl]
    exact isSubOf_append_left _ h
  have h2 := isSubOf_append_left p.bucket h1
  exact isSubOf_append_left S3_SCHEME h2

theorem get_band_filename_suffix {sid band ext : Str} {flag : Bool} {fn : Str}
    (h : get_band_filename sid band ext flag = .ok fn) : ext <:+ fn := by
  unfold get_band_filename at h
  cases hsfx : (if flag then
      if band ∈ S2L2A_20M_BANDS then Except.ok (("_20m").data)
      else if band ∈ S2L2A_10M_BANDS then Except.ok (("_10m").data)
      else Except.error PyErr.unsupportedBandError
    else Except.ok ([] : Str) : Except PyErr Str) with
  | error e =>
    rw [hsfx] at h
    exact Except.noConfusion h
  | ok sfx =>
    rw [hsfx] at h
    cases hp : parse_sentinel2_id sid with
    | error e =>
      rw [hp] at h
      exact Except.noConfusion h
    | ok parsed =>
      rw [hp] at h
      rw [← Except.ok.inj h]
      exact List.suffix_append _ ext

theorem s2DestStep_ok (satellite folder : Str) (p : S3Path) (acc acc1 : List Str)
    (hb : p.bucket = ("EODATA").data)
    (hext : isSubOf EXT_JP2 p.key = true ∨ isSubOf EXT_XML p.key = true)
    (h : s2DestStep satellite folder acc p = .ok acc1) :
    ∃ d, acc1 = acc ++ [d] ∧ destSpec satellite folder p d := by
  unfold s2DestStep at h
  cases hpu : parse_s3url (s3path_to_s3url p) with
  | error e =>
    rw [hpu] at h
    exact Except.noConfusion h
  | ok pu =>
    rw [hpu] at h
    dsimp only at h
    obtain ⟨sp, hsp, hjp2, hxml⟩ := parse_s3url_ok_fields hpu
    have hslash : ('/' : Char) ∉ p.bucket := by
      rw [hb]
      decide
    have hspp : sp = p := by
      have hrt := s3path_roundtrip hslash
      rw [hsp] at hrt
      exact Except.ok.inj hrt
    rw [hspp] at hjp2 hxml
    by_cases c1 : isSubOf EXT_JP2 p.key = true
    · rw [if_pos c1] at h
      obtain ⟨bf, rest, hf, hbf⟩ := hjp2 (isSubOf_url p c1)
      rw [hbf] at h
      dsimp only at h
      cases hpb : parse_band_filename bf satellite with
      | error e =>
        rw [hpb] at h
        exact Except.noConfusion h
      | ok pb =>
        rw [hpb] at h
        refine ⟨osPathJoin [folder, pb.band ++ pb.ext], (Except.ok.inj h).symm, ?_⟩
        exact Or.inl ⟨c1, bf, rest, pb, hf, hpb, rfl⟩
    · rw [if_neg c1] at h
      have c2 : isSubOf EXT_XML p.key = true := by
        rcases hext with hx | hx
        · exact absurd hx c1
        · exact hx
      rw [if_pos c2] at h
      obtain ⟨xf, rest, hf, hxf⟩ := hxml (isSubOf_url p c2)
      rw [hxf] at h
      dsimp only at h
      refine ⟨osPathJoin [folder, xf], (Except.ok.inj h).symm, ?_⟩
      exact Or.inr ⟨Bool.eq_false_iff.mpr c1, c2, xf, rest, hf, rfl⟩

theorem exFoldlM_destStep (satellite folder : Str) (l : List S3Path) :
    ∀ acc fs : List Str,
    (∀ p ∈ l, S3Path.bucket p = ("EODATA").data ∧
      (isSubOf EXT_JP2 (S3Path.key p) = true ∨ isSubOf EXT_XML (S3Path.key p) = true)) →
    exFoldlM (s2DestStep satellite folder) acc l = .ok fs →
    ∃ ds, fs = acc ++ ds ∧ ds.length = l.length ∧
      ∀ i, i < l.length →
        destSpec satellite folder (l.getD i ⟨[], []⟩) (ds.getD i []) := by
  induction l with
  | nil =>
    intro acc fs hall h
    refine ⟨[], ?_, rfl, fun i hi => absurd hi (by simp)⟩
    rw [← Except.ok.inj h]
    simp
  | cons p l ih =>
    intro acc fs hall h
    simp only [exFoldlM] at h
    cases hstep : s2DestStep satellite folder acc p with
    | error e =>
      rw [hstep] at h
      exact Except.noConfusion h
    | ok acc1 =>
      rw [hstep] at h
      obtain ⟨d, hacc1, hspec⟩ := s2DestStep_ok satellite folder p acc acc1
        (hall p (List.mem_cons_self p l)).1 (hall p (List.mem_cons_self p l)).2 hstep
      obtain ⟨ds, hfs, hlen, hspecs⟩ := ih acc1 fs
        (fun q hq => hall q (List.mem_cons.mpr (Or.inr hq))) h
      refine ⟨d :: ds, ?_, by simp [hlen], ?_⟩
      · rw [hfs, hacc1]
        simp [List.append_assoc]
      · intro i hi
        cases i with
        | zero => simpa using hspec
        | succ n =>
          simp only [List.getD_cons_succ]
          exact hspecs n (by simpa using hi)

/-- Claim C2 (amended): whenever the resolver returns, it returns two lists
of equal length that are positionally aligned 1:1 — the i-th destination
belongs to the i-th locator; every matched imagery key is assigned
destination `{root}/{locator-derived-subpath}/{band}{ext}` where band and
ext are decoded from the key's first imagery-extension path segment; every
matched metadata key is assigned `{root}/{locator-derived-subpath}/{seg}`
where seg is the key's first metadata-extension path segment (this is the
key's original filename in the normal store layout, but not in general);
and all destinations of the product lie
in the one directory obtained by stripping the store's URI prefix and the
container suffix from the root locator (`s3url_to_download_folderpath`). -/
theorem C2_resolver_alignment (s3url root_folderpath : Str) (bands : List Str)
    (satellite : Str) (listing : List S3Path) (ps : List S3Path) (fs : List Str)
    (h : get_s3paths_single_url s3url root_folderpath bands satellite listing =
      .ok (ps, fs)) :
    ∃ folder, s3url_to_download_folderpath s3url root_folderpath = .ok folder ∧
      fs.length = ps.length ∧
      ∀ i, i < ps.length →
        destSpec satellite folder (ps.getD i ⟨[], []⟩) (fs.getD i []) := by
  unfold get_s3paths_single_url at h
  by_cases hstart : VALID_S3URL_START.isPrefixOf s3url = true
  · rw [if_neg (not_not_intro hstart)] at h
    by_cases hend : VALID_S3URL_END.isSuffixOf s3url = true ∨ EXT_SAFE.isSuffixOf s3url = true
    · rw [if_neg (not_not_intro hend)] at h
      cases hfam : (if satellite = S2L1C_NAME then Except.ok (S2L1C_ALL, false)
          else if satellite = S2L2A_NAME then Except.ok (S2L2A_ALL, true)
          else Except.error PyErr.notImplementedError :
          Except PyErr (List Str × Bool)) with
      | error e =>
        rw [hfam] at h
        exact Except.noConfusion h
      | ok fam =>
        rw [hfam] at h
        dsimp only at h
        by_cases hinv : bands.filter (fun b => decide (b ∉ fam.1)) ≠ []
        · rw [if_pos hinv] at h
          exact Except.noConfusion h
        · rw [if_neg hinv] at h
          cases hpu : parse_s3url s3url with
          | error e =>
            rw [hpu] at h
            exact Except.noConfusion h
          | ok pu =>
            rw [hpu] at h
            dsimp only at h
            cases hid : pu.id with
            | none =>
              rw [hid] at h
              exact Except.noConfusion h
            | some sid =>
              rw [hid] at h
              dsimp only at h
              cases hmap : exMapM
                  (fun band => get_band_filename sid band EXT_JP2 fam.2) bands with
              | error e =>
                rw [hmap] at h
                exact Except.noConfusion h
              | ok band_files =>
                rw [hmap] at h
                dsimp only at h
                cases hroot : s3url_to_s3path s3url with
                | error e =>
                  rw [hroot] at h
                  exact Except.noConfusion h
                | ok root_s3path =>
                  rw [hroot] at h
                  dsimp only at h
                  cases hfolder : s3url_to_download_folderpath s3url root_folderpath with
                  | error e =>
                    rw [hfolder] at h
                    exact Except.noConfusion h
                  | ok folder =>
                    rw [hfolder] at h
                    dsimp only at h
                    cases hloop : exFoldlM (s2DestStep satellite folder) []
                        ((listing.filter (fun f =>
                          f.bucket == root_s3path.bucket &&
                          root_s3path.key.isPrefixOf f.key)).filter (fun f =>
                            (band_files ++ [MTD_TL_XML]).any
                              (fun fd => isSubOf fd f.key))) with
                    | error e =>
                      rw [hloop] at h
                      exact Except.noConfusion h
                    | ok dfs =>
                      rw [hloop] at h
                      have hpair := Except.ok.inj h
                      have hps : (listing.filter (fun f =>
                          f.bucket == root_s3path.bucket &&
                          root_s3path.key.isPrefixOf f.key)).filter (fun f =>
                            (band_files ++ [MTD_TL_XML]).any
                              (fun fd => isSubOf fd f.key)) = ps :=
                        congrArg Prod.fst hpair
                      have hdfs : dfs = fs := congrArg Prod.snd hpair
                      obtain ⟨rest, hurl, hrootval⟩ := s3url_to_s3path_of_start hstart
                      rw [hroot] at hrootval
                      have hbucket : root_s3path.bucket = ("EODATA").data := by
                        rw [Except.ok.inj hrootval]
                      have hall : ∀ p ∈ (listing.filter (fun f =>
                          f.bucket == root_s3path.bucket &&
                          root_s3path.key.isPrefixOf f.key)).filter (fun f =>
                            (band_files ++ [MTD_TL_XML]).any
                              (fun fd => isSubOf fd f.key)),
                          S3Path.bucket p = ("EODATA").data ∧
                          (isSubOf EXT_JP2 (S3Path.key p) = true ∨
                           isSubOf EXT_XML (S3Path.key p) = true) := by
                        intro p hp
                        have hp2 := List.mem_filter.mp hp
                        have hp3 := List.mem_filter.mp hp2.1
                        constructor
                        · have hb : (S3Path.bucket p == root_s3path.bucket) = true ∧
                              List.isPrefixOf root_s3path.key (S3Path.key p) = true := by
                            simpa [Bool.and_eq_true] using hp3.2
                          rw [← hbucket]
                          exact beq_iff_eq.mp hb.1
                        · obtain ⟨fd, hfdmem, hsub⟩ := List.any_eq_true.mp hp2.2
                          rcases List.mem_append.mp hfdmem with hin | hin
                          · obtain ⟨band, _, hgbf⟩ := exMapM_ok_mem hmap fd hin
                            exact Or.inl (isSubOf_trans
                              (isSubOf_of_suffix (get_band_filename_suffix hgbf)) hsub)
                          · have hfd : fd = MTD_TL_XML := by simpa using hin
                            refine Or.inr (isSubOf_trans ?_ hsub)
                            rw [hfd]
                            decide
                      obtain ⟨ds, hds, hlen, hspecs⟩ := exFoldlM_destStep satellite folder
                        _ [] dfs hall hloop
                      rw [List.nil_append] at hds
                      refine ⟨folder, rfl, ?_, ?_⟩
                      · rw [← hdfs, ← hps, hds, hlen]
                      · intro i hi
                        rw [← hdfs, hds, ← hps]
                        rw [← hps] at hi
                        exact hspecs i hi
    · rw [if_pos hend] at h
      exact Except.noConfusion h
  · rw [if_pos hstart] at h
    exact Except.noConfusion h

/-- Counterexample to claim C2 as stated: a matched metadata key does not in
general keep its original filename.  For the store key
`a.SAFE/b.xml.c/MTD_TL.xml` — matched because it contains the metadata
filename `MTD_TL.xml` — the resolver assigns the destination `r/a/b.xml.c`,
built from the first path segment containing the metadata extension, not
from the key's original filename `MTD_TL.xml`. -/
theorem C2_resolver_alignment_cex :
    get_s3paths_single_url (("s3://EODATA/a.SAFE").data) (("r").data) []
        S2L1C_NAME [⟨("EODATA").data, ("a.SAFE/b.xml.c/MTD_TL.xml").data⟩] =
      .ok ([⟨("EODATA").data, ("a.SAFE/b.xml.c/MTD_TL.xml").data⟩],
           [("r/a/b.xml.c").data]) ∧
    (splitOnC '/' (("a.SAFE/b.xml.c/MTD_TL.xml").data)).getLastD [] =
      ("MTD_TL.xml").data ∧
    (splitOnC '/' (("r/a/b.xml.c").data)).getLastD [] ≠ ("MTD_TL.xml").data := by
  refine ⟨rfl, rfl, by decide⟩

/-- Witness for C2 (amended): a store exposing one imagery key for band B02
resolves to one aligned destination under the product directory. -/
theorem C2_resolver_alignment_witness :
    ∃ folder, s3url_to_download_folderpath
        (("s3://EODATA/S2A_MSIL1C_20230101T100000_N0500_R001_T32TQM_20230101T120000.SAFE").data)
        (("r").data) = .ok folder ∧
      ([("r/S2A_MSIL1C_20230101T100000_N0500_R001_T32TQM_20230101T120000/B02.jp2").data] :
          List Str).length =
        ([⟨("EODATA").data,
           ("S2A_MSIL1C_20230101T100000_N0500_R001_T32TQM_20230101T120000.SAFE/GRANULE/T32TQM_20230101T100000_B02.jp2").data⟩] :
          List S3Path).length ∧
      ∀ i, i < ([⟨("EODATA").data,
           ("S2A_MSIL1C_20230101T100000_N0500_R001_T32TQM_20230101T120000.SAFE/GRANULE/T32TQM_20230101T100000_B02.jp2").data⟩] :
          List S3Path).length →
        destSpec S2L1C_NAME folder
          (([⟨("EODATA").data,
             ("S2A_MSIL1C_20230101T100000_N0500_R001_T32TQM_20230101T120000.SAFE/GRANULE/T32TQM_20230101T100000_B02.jp2").data⟩] :
            List S3Path).getD i ⟨[], []⟩)
          (([("r/S2A_MSIL1C_20230101T100000_N0500_R001_T32TQM_20230101T120000/B02.jp2").data] :
            List Str).getD i []) :=
  C2_resolver_alignment
    (("s3://EODATA/S2A_MSIL1C_20230101T100000_N0500_R001_T32TQM_20230101T120000.SAFE").data)
    (("r").data) [("B02").data] S2L1C_NAME
    [⟨("EODATA").data,
      ("S2A_MSIL1C_20230101T100000_N0500_R001_T32TQM_20230101T120000.SAFE/GRANULE/T32TQM_20230101T100000_B02.jp2").data⟩]
    [⟨("EODATA").data,
      ("S2A_MSIL1C_20230101T100000_N0500_R001_T32TQM_20230101T120000.SAFE/GRANULE/T32TQM_20230101T100000_B02.jp2").data⟩]
    [("r/S2A_MSIL1C_20230101T100000_N0500_R001_T32TQM_20230101T120000/B02.jp2").data]
    rfl
